import Mathlib

/-!
Verification development for the ParaStell orchestration module
(`parastell/parastell.py`).  The Python source is shallowly embedded:
Python dict objects become association lists stored in an explicit heap
(so that mutation and aliasing are visible), straight-line method bodies
become trace-producing functions, and exceptions become explicit flags.
-/

set_option autoImplicit false

namespace Parastell

/-- Scalar Python values appearing in the configuration dictionaries. -/
inductive PyVal where
  | none
  | bool (b : Bool)
  | int (n : Int)
  | str (s : String)
deriving DecidableEq

/-- Modelled from the spec: the constant `m2cm` imported from the missing
`utils` module, "a scaling factor between the units of VMEC and [cm]
(double, defaults to m2cm = 100)"; the meters-to-centimeters factor 100. -/
def m2cm : Int := 100

/-- A Python dict with string keys, as an ordered association list with
at most one entry per key (Python dicts never hold duplicate keys). -/
abbrev PyDict := List (String × PyVal)

/-- Python dict lookup `d[k]`: the value at key `k`, `none` when the key is
absent (in Python the latter raises `KeyError`). -/
def dictGet? (d : PyDict) (k : String) : Option PyVal :=
  (d.find? (fun p => p.1 == k)).map Prod.snd

/-- Python dict item assignment `d[k] = v`: overwrite the entry for `k`,
keeping insertion order, or append a new entry when `k` is absent. -/
def dictSet : PyDict → String → PyVal → PyDict
  | [], k, v => [(k, v)]
  | p :: rest, k, v => if p.1 = k then (k, v) :: rest else p :: dictSet rest k v

/-- Python `d.update(other)`: assign every entry of `other` into `d`,
left to right. -/
def dictUpdate (d other : PyDict) : PyDict :=
  other.foldl (fun acc p => dictSet acc p.1 p.2) d

/-- Lookup with Python's `None` as fallback; used only at keys that the
merged dictionaries are guaranteed to contain. -/
def dictGetD (d : PyDict) (k : String) : PyVal :=
  (dictGet? d k).getD PyVal.none

/-- Python truthiness of a scalar value, as used by `if d[key]:`. -/
def pyTruthy : PyVal → Bool
  | PyVal.none => false
  | PyVal.bool b => b
  | PyVal.int n => decide (n ≠ 0)
  | PyVal.str s => decide (s ≠ "")

/-- A heap of Python dict objects: addresses mapped to contents, plus the
next fresh address.  Lets the embedding distinguish mutating a fresh copy
of the defaults from mutating the caller's dict. -/
structure Heap where
  store : List (Nat × PyDict)
  next : Nat
deriving DecidableEq

/-- Lookup of an address in a raw store. -/
def storeGet? (l : List (Nat × PyDict)) (a : Nat) : Option PyDict :=
  (l.find? (fun p => p.1 == a)).map Prod.snd

/-- Dereference an address. -/
def Heap.get? (h : Heap) (a : Nat) : Option PyDict :=
  storeGet? h.store a

/-- Overwrite the contents at an (existing) address. -/
def Heap.set (h : Heap) (a : Nat) (d : PyDict) : Heap :=
  ⟨h.store.map (fun p => if p.1 = a then (a, d) else p), h.next⟩

/-- Allocate a fresh dict object (this is `defaults.copy()`). -/
def Heap.alloc (h : Heap) (d : PyDict) : Heap × Nat :=
  (⟨h.store ++ [(h.next, d)], h.next + 1⟩, h.next)

/-- Heap well-formedness: every allocated address is below `next`. -/
def Heap.WF (h : Heap) : Prop :=
  ∀ p ∈ h.store, p.1 < h.next

instance (h : Heap) : Decidable h.WF := by
  unfold Heap.WF; infer_instance

/-- The `X = defaults.copy(); X.update(user)` idiom shared by the four
`set_*_dict` methods: allocate a copy of the defaults, read the user's
dict, and merge the user's entries into the copy in place.  Returns the
new heap and the address of the merged dict. -/
def copyUpdate (defaults : PyDict) (h : Heap) (user : Nat) : Heap × Nat :=
  let r := h.alloc defaults
  let ud := (r.1.get? user).getD []
  (r.1.set r.2 (dictUpdate defaults ud), r.2)

/-- The defaults local `invessel_build_def` of `set_invessel_build_dict`. -/
def invessel_build_def : PyDict :=
  [("repeat", PyVal.int 0),
   ("num_ribs", PyVal.int 61),
   ("num_rib_pts", PyVal.int 61),
   ("scale", PyVal.int m2cm),
   ("export_cad_to_dagmc", PyVal.bool false),
   ("plasma_mat_tag", PyVal.none),
   ("sol_mat_tag", PyVal.none),
   ("dagmc_filename", PyVal.str ("dagmc")),
   ("export_dir", PyVal.str (""))]

/-- The defaults local `magnets_def` of `set_magnets_dict`. -/
def magnets_def : PyDict :=
  [("sample_mod", PyVal.int 1),
   ("scale", PyVal.int m2cm),
   ("step_filename", PyVal.str ("magnets")),
   ("mat_tag", PyVal.str ("magnets")),
   ("export_mesh", PyVal.bool false),
   ("mesh_filename", PyVal.str ("magnet_mesh")),
   ("export_dir", PyVal.str (""))]

/-- The defaults local `source_def` of `set_source_dict`. -/
def source_def : PyDict :=
  [("scale", PyVal.int m2cm),
   ("filename", PyVal.str ("source_mesh")),
   ("export_dir", PyVal.str (""))]

/-- The defaults local `dagmc_export_def` of `set_dagmc_export`. -/
def dagmc_export_def : PyDict :=
  [("skip_imprint", PyVal.bool false),
   ("legacy_faceting", PyVal.bool true),
   ("faceting_tolerance", PyVal.none),
   ("length_tolerance", PyVal.none),
   ("normal_tolerance", PyVal.none),
   ("anisotropic_ratio", PyVal.int 100),
   ("deviation_angle", PyVal.int 5),
   ("filename", PyVal.str ("dagmc")),
   ("export_dir", PyVal.str (""))]

/-- Method `Stellarator.set_invessel_build_dict`: store the merge of the
user's dict over `invessel_build_def` into the fresh `self.ivb_dict`. -/
def set_invessel_build_dict (h : Heap) (invessel_build : Nat) : Heap × Nat :=
  copyUpdate invessel_build_def h invessel_build

/-- Method `Stellarator.get_invessel_build_dict`: return `self.ivb_dict`. -/
def get_invessel_build_dict (h : Heap) (ivb_dict : Nat) : Option PyDict :=
  h.get? ivb_dict

/-- Method `Stellarator.set_magnets_dict`. -/
def set_magnets_dict (h : Heap) (magnets : Nat) : Heap × Nat :=
  copyUpdate magnets_def h magnets

/-- Method `Stellarator.get_magnets_dict`: return `self.magnets_dict`. -/
def get_magnets_dict (h : Heap) (magnets_dict : Nat) : Option PyDict :=
  h.get? magnets_dict

/-- Method `Stellarator.set_source_dict`. -/
def set_source_dict (h : Heap) (source : Nat) : Heap × Nat :=
  copyUpdate source_def h source

/-- Method `Stellarator.get_source_dict`: return `self.source_dict`. -/
def get_source_dict (h : Heap) (source_dict : Nat) : Option PyDict :=
  h.get? source_dict

/-- Method `Stellarator.set_dagmc_export`. -/
def set_dagmc_export (h : Heap) (dagmc_export : Nat) : Heap × Nat :=
  copyUpdate dagmc_export_def h dagmc_export

/-- Method `Stellarator.get_dagmc_export`: return `self.dagmc_export`. -/
def get_dagmc_export (h : Heap) (dagmc_export : Nat) : Option PyDict :=
  h.get? dagmc_export

/-- Split a character list at every path separator, keeping empty pieces
(the helper behind `pathlib`'s component parsing). -/
def splitOnSlash : List Char → List (List Char)
  | [] => [[]]
  | c :: rest =>
    match splitOnSlash rest with
    | [] => [[]]
    | s :: ss => if c = '/' then [] :: s :: ss else (c :: s) :: ss

/-- Path components as `pathlib` parses them: empty pieces and lone dots
are dropped (so trailing slashes and `.` segments are ignored). -/
def pathComponents (cs : List Char) : List (List Char) :=
  (splitOnSlash cs).filter (fun s => s ≠ [] ∧ s ≠ ['.'])

/-- Property `PurePath.name`: the final path component, or empty. -/
def pathNameChars (cs : List Char) : List Char :=
  ((pathComponents cs).getLast?).getD []

/-- Index of the last dot in a name, Python's `name.rfind(\x27.\x27)`. -/
def lastDotIdx (cs : List Char) : Option Nat :=
  ((List.range cs.length).filter (fun i => cs.get? i = some '.')).getLast?

/-- Property `PurePath.suffix`: the final component's extension, `name[i:]`
for the last dot index `i` when `0 < i < len(name) - 1`, else empty. -/
def pathSuffixChars (cs : List Char) : List Char :=
  let name := pathNameChars cs
  match lastDotIdx name with
  | some i => if 0 < i ∧ i < name.length - 1 then name.drop i else []
  | Option.none => []

/-- The extension test `Path(file).suffix` used by the `vmec_file` setter. -/
def pathSuffix (p : String) : String :=
  ⟨pathSuffixChars p.data⟩

/-- A `logging.Logger` object, abstracted to the one property the source
reads: whether `hasHandlers()` is true. -/
structure Logger where
  hasHandlers : Bool
deriving DecidableEq

/-- Modelled from the spec: `log.init()` from the missing `log` module.
Per the class docstring, "If no logger is supplied, a default logger will
be instantiated"; the default logger is initialized with handlers
attached (otherwise the setter's own guard would defeat its purpose). -/
def log_init : Logger :=
  ⟨true⟩

/-- Truthiness/handler check `self._logger == None or not
self._logger.hasHandlers()` (short-circuit: `hasHandlers` is only reached
on a non-`None` logger). -/
def loggerNeedsDefault : Option Logger → Bool
  | Option.none => true
  | some lg => !lg.hasHandlers

/-- Setter of the `logger` property: store the assigned object, then
replace it by `log.init()` when it is `None` or has no handlers. -/
def logger_setter (logger_object : Option Logger) : Option Logger :=
  let stored := logger_object
  if loggerNeedsDefault stored then some log_init else stored

/-- Attribute record of the external `InVesselBuild` object, modelled from
the spec and from this module's reads: `radial_build` maps component names
to their DAGMC material tag and (after STEP import) CAD volume id, and
`export_dir` is the directory the STEP files were exported to. -/
structure RadialBuildEntry where
  mat_tag : String
  vol_id : Nat
deriving DecidableEq

/-- The external `InVesselBuild` object as read by `parastell.py`. -/
structure InVesselBuild where
  radial_build : List (String × RadialBuildEntry)
  export_dir : String
deriving DecidableEq

/-- The external `MagnetSet` object as read by `parastell.py`:
`volume_ids` of the imported coil solids and the DAGMC material tag. -/
structure MagnetSet where
  volume_ids : List Nat
  mat_tag : String
deriving DecidableEq

/-- The attributes of a `Stellarator` instance used by the claims:
`_vmec_file`, `_logger`, and the three component objects (each `None`
until the corresponding `construct_*` method ran). -/
structure StellState where
  vmec_file : String
  logger : Option Logger
  invessel_build : Option InVesselBuild
  magnet_set : Option MagnetSet
  source_mesh : Option Unit
deriving DecidableEq

/-- Getter of the `vmec_file` property: return `self._vmec_file`. -/
def vmec_file_getter (st : StellState) : String :=
  st.vmec_file

/-- Setter of the `vmec_file` property: first store the path in
`self._vmec_file`, then raise an `AssertionError` (flag `true`) when
`Path(self._vmec_file).suffix != \x27.nc\x27`. -/
def vmec_file_setter (st : StellState) (file : String) : StellState × Bool :=
  let st' := { st with vmec_file := file }
  if pathSuffix st'.vmec_file ≠ ".nc" then (st', true) else (st', false)

/-- Constructor `Stellarator.__init__`: assign the `logger` property, then
the `vmec_file` property; the raised flag is `true` when the latter
raised (in which case `__init__` aborts before reading the VMEC file and
initializing the component attributes). -/
def stellarator_init (vmec_file : String) (logger : Option Logger) :
    StellState × Bool :=
  let st0 : StellState :=
    { vmec_file := "", logger := logger_setter logger,
      invessel_build := Option.none, magnet_set := Option.none,
      source_mesh := Option.none }
  vmec_file_setter st0 vmec_file

/-- The Coreform Cubit commands issued by this module, one constructor per
command template in the source, with the template holes as fields. -/
inductive Cmd where
  | imprintVolumeAll
  | mergeVolumeAll
  | groupAddVolume (mat_tag : String) (vol_id_str : String)
  | createMaterial (mat_tag : String)
  | blockAddVolume (block_id : Nat) (vol_id_str : String)
  | blockMaterial (block_id : Nat) (mat_tag : String)
  | setDuplicateBlockElementsOff
deriving DecidableEq

/-- The exact command string each `Cmd` stands for, as passed to
`cubit.cmd` by the source. -/
def Cmd.render : Cmd → String
  | Cmd.imprintVolumeAll => "imprint volume all"
  | Cmd.mergeVolumeAll => "merge volume all"
  | Cmd.groupAddVolume t v =>
      "group \"mat:" ++ t ++ "\" add volume " ++ v
  | Cmd.createMaterial t =>
      "create material \"" ++ t ++ "\" property_group \"CUBIT-ABAQUS\""
  | Cmd.blockAddVolume b v =>
      "block " ++ toString b ++ " add volume " ++ v
  | Cmd.blockMaterial b t =>
      "block " ++ toString b ++ " material \x27" ++ t ++ "\x27"
  | Cmd.setDuplicateBlockElementsOff => "set duplicate block elements off"

/-- Observable actions of `export_dagmc` and its helpers, in program
order: Cubit session start, logging, STEP import, the in-vessel build's
own surface merge, raw Cubit commands, and the two faceting exports with
the parameters passed to `cubit_io`. -/
inductive Event where
  | initCubit
  | logInfo (msg : String)
  | importStepCubit (name : String) (export_dir : String)
  | mergeLayerSurfaces
  | cubitCmd (c : Cmd)
  | exportDagmcCubitLegacy (faceting_tolerance length_tolerance
      normal_tolerance filename export_dir : PyVal)
  | exportDagmcCubitNative (anisotropic_ratio deviation_angle
      filename export_dir : PyVal)
deriving DecidableEq

/-- Function `make_material_block`: the three Cubit commands creating a
material, filling a block, and tying the block to the material. -/
def make_material_block (mat_tag : String) (block_id : Nat)
    (vol_id_str : String) : List Event :=
  [Event.cubitCmd (Cmd.createMaterial mat_tag),
   Event.cubitCmd (Cmd.blockAddVolume block_id vol_id_str),
   Event.cubitCmd (Cmd.blockMaterial block_id mat_tag)]

/-- Method `Stellarator._import_ivb_step`: import each radial-build
component's STEP file (the returned volume ids are recorded in the
`radial_build` entries, here already present in the state). -/
def import_ivb_step (st : StellState) : List Event :=
  match st.invessel_build with
  | some ivbObj =>
      ivbObj.radial_build.map
        (fun p => Event.importStepCubit p.1 ivbObj.export_dir)
  | Option.none => []

/-- Method `Stellarator._tag_materials_legacy`: a `group "mat:…"` command
for the magnet volumes (when a magnet set exists) and one per in-vessel
component (when an in-vessel build exists). -/
def tag_materials_legacy (st : StellState) : List Event :=
  (match st.magnet_set with
   | some ms =>
       [Event.cubitCmd (Cmd.groupAddVolume ms.mat_tag
         (String.intercalate " " (ms.volume_ids.map (fun i => toString i))))]
   | Option.none => [])
  ++
  (match st.invessel_build with
   | some ivbObj =>
       ivbObj.radial_build.map
         (fun p => Event.cubitCmd
           (Cmd.groupAddVolume p.2.mat_tag (toString p.2.vol_id)))
   | Option.none => [])

/-- Method `Stellarator._tag_materials_native`: switch off duplicate block
elements, then a material block for the magnet volumes (block id the
minimum volume id) and one per in-vessel component (block id the
component's volume id). -/
def tag_materials_native (st : StellState) : List Event :=
  [Event.cubitCmd Cmd.setDuplicateBlockElementsOff]
  ++
  (match st.magnet_set with
   | some ms =>
       make_material_block ms.mat_tag ((ms.volume_ids.min?).getD 0)
         (String.intercalate " " (ms.volume_ids.map (fun i => toString i)))
   | Option.none => [])
  ++
  (match st.invessel_build with
   | some ivbObj =>
       ivbObj.radial_build.flatMap
         (fun p => make_material_block p.2.mat_tag p.2.vol_id
           (toString p.2.vol_id))
   | Option.none => [])

/-- Method `Stellarator.export_dagmc`, as the sequence of actions it
performs.  `dagmc_export` is the caller's dict; the dict stored by
`set_dagmc_export` and returned by `get_dagmc_export` is exactly
`dictUpdate dagmc_export_def dagmc_export` (lemma `copyUpdate_get`
below), so the merged dict is used directly here. -/
def export_dagmc (st : StellState) (dagmc_export : PyDict) : List Event :=
  let export_dict := dictUpdate dagmc_export_def dagmc_export
  [Event.initCubit,
   Event.logInfo ("Exporting DAGMC neutronics model...")]
  ++ (if st.invessel_build.isSome then import_ivb_step st else [])
  ++ (if pyTruthy (dictGetD export_dict ("skip_imprint")) then
        [Event.mergeLayerSurfaces]
      else
        [Event.cubitCmd Cmd.imprintVolumeAll,
         Event.cubitCmd Cmd.mergeVolumeAll])
  ++ (if pyTruthy (dictGetD export_dict ("legacy_faceting")) then
        tag_materials_legacy st
        ++ [Event.exportDagmcCubitLegacy
             (dictGetD export_dict ("faceting_tolerance"))
             (dictGetD export_dict ("length_tolerance"))
             (dictGetD export_dict ("normal_tolerance"))
             (dictGetD export_dict ("filename"))
             (dictGetD export_dict ("export_dir"))]
      else
        tag_materials_native st
        ++ [Event.exportDagmcCubitNative
             (dictGetD export_dict ("anisotropic_ratio"))
             (dictGetD export_dict ("deviation_angle"))
             (dictGetD export_dict ("filename"))
             (dictGetD export_dict ("export_dir"))])

/-- Does an event export via the native faceting path? -/
def Event.isNativeExport : Event → Bool
  | Event.exportDagmcCubitNative _ _ _ _ => true
  | _ => false

/-- Does an event export via the legacy faceting path? -/
def Event.isLegacyExport : Event → Bool
  | Event.exportDagmcCubitLegacy _ _ _ _ _ => true
  | _ => false

/-- The statements of the script entry point `parastell()` after argument
parsing, one constructor per call. -/
inductive Stage where
  | readConfig
  | initStellarator
  | constructInvesselBuild
  | exportInvesselBuild
  | constructMagnets
  | exportMagnets
  | constructSourceMesh
  | exportSourceMesh
  | exportDagmc
deriving DecidableEq

/-- The fixed statement order of `parastell()`: read the YAML
configuration, build the `Stellarator`, then construct and export the
in-vessel build, the magnets and the source mesh, and finally export the
DAGMC model. -/
def pipelineStages : List Stage :=
  [Stage.readConfig, Stage.initStellarator,
   Stage.constructInvesselBuild, Stage.exportInvesselBuild,
   Stage.constructMagnets, Stage.exportMagnets,
   Stage.constructSourceMesh, Stage.exportSourceMesh,
   Stage.exportDagmc]

/-- Sequential execution of straight-line statements under Python
exception semantics: run each stage in order; a raising stage (per the
oracle `fails`) ends the run immediately, since `parastell()` contains no
handler and no retry.  Returns the stages that actually ran and the
stage whose exception propagated, if any. -/
def runStages (fails : Stage → Bool) : List Stage → List Stage × Option Stage
  | [] => ([], Option.none)
  | s :: rest =>
    if fails s then ([s], some s)
    else
      let r := runStages fails rest
      (s :: r.1, r.2)

/-- Function `parastell()`: execute the pipeline statements in order. -/
def parastellRun (fails : Stage → Bool) : List Stage × Option Stage :=
  runStages fails pipelineStages

/-- Calls made by the two `construct_*` methods settled here, one
constructor per call site. -/
inductive CEvent where
  | setSourceDict
  | getSourceDict
  | sourceMeshNew
  | createVertices
  | createMesh
  | setInvesselBuildDict
  | getInvesselBuildDict
  | invesselBuildNew
  | populateSurfaces
  | calculateLoci
  | generateComponents
deriving DecidableEq

/-- Method `Stellarator.construct_source_mesh`, as its sequence of calls:
set and read the source dict, build the `SourceMesh` object, then
`create_vertices()` followed by `create_mesh()` on it. -/
def construct_source_mesh_calls : List CEvent :=
  [CEvent.setSourceDict, CEvent.getSourceDict, CEvent.sourceMeshNew,
   CEvent.createVertices, CEvent.createMesh]

/-- Method `Stellarator.construct_invessel_build`, as its sequence of
calls: set and read the in-vessel dict, build the `InVesselBuild` object,
then `populate_surfaces()`, `calculate_loci()` and
`generate_components()` on it. -/
def construct_invessel_build_calls : List CEvent :=
  [CEvent.setInvesselBuildDict, CEvent.getInvesselBuildDict,
   CEvent.invesselBuildNew, CEvent.populateSurfaces,
   CEvent.calculateLoci, CEvent.generateComponents]

/-- Function `read_yaml_config`: from the mapping loaded out of the YAML
file, extract the five configuration sections by key lookup.  A missing
key raises `KeyError` (the `Option.none` result); otherwise the five
values are returned in source order. -/
def read_yaml_config (all_data : PyDict) :
    Option (PyVal × PyVal × PyVal × PyVal × PyVal) :=
  match dictGet? all_data ("vmec_file"),
        dictGet? all_data ("invessel_build"),
        dictGet? all_data ("magnet_coils"),
        dictGet? all_data ("source_mesh"),
        dictGet? all_data ("dagmc_export") with
  | some a, some b, some c, some d, some e => some (a, b, c, d, e)
  | _, _, _, _, _ => Option.none

theorem dictGet?_nil (k : String) : dictGet? [] k = Option.none :=
  rfl

theorem dictGet?_cons (p : String × PyVal) (rest : PyDict) (k : String) :
    dictGet? (p :: rest) k = if p.1 = k then some p.2 else dictGet? rest k := by
  by_cases h : p.1 = k <;> simp [dictGet?, List.find?_cons, h]

theorem dictGet?_dictSet_self (d : PyDict) (k : String) (v : PyVal) :
    dictGet? (dictSet d k v) k = some v := by
  induction d with
  | nil => simp [dictSet, dictGet?_cons]
  | cons p rest ih =>
    by_cases h : p.1 = k
    · simp [dictSet, h, dictGet?_cons]
    · simp [dictSet, h, dictGet?_cons, ih]

theorem dictGet?_dictSet_ne (d : PyDict) (k : String) (v : PyVal)
    (k' : String) (h : k' ≠ k) :
    dictGet? (dictSet d k v) k' = dictGet? d k' := by
  have hkk : k ≠ k' := Ne.symm h
  induction d with
  | nil =>
    simp only [dictSet]
    rw [dictGet?_cons, if_neg hkk]
  | cons p rest ih =>
    by_cases hp : p.1 = k
    · simp only [dictSet, if_pos hp]
      rw [dictGet?_cons, dictGet?_cons, hp, if_neg hkk, if_neg hkk]
    · simp only [dictSet, if_neg hp]
      rw [dictGet?_cons, dictGet?_cons, ih]

theorem dictGet?_eq_none_iff (d : PyDict) (k : String) :
    dictGet? d k = Option.none ↔ ∀ p ∈ d, p.1 ≠ k := by
  induction d with
  | nil => simp [dictGet?]
  | cons p rest ih =>
    by_cases hp : p.1 = k <;> simp [dictGet?_cons, hp, ih]

theorem dictGet?_dictUpdate_of_none (u : PyDict) :
    ∀ (d : PyDict) (k : String), dictGet? u k = Option.none →
      dictGet? (dictUpdate d u) k = dictGet? d k := by
  induction u with
  | nil => intro d k _; rfl
  | cons p rest ih =>
    intro d k h
    rw [dictGet?_cons] at h
    by_cases hp : p.1 = k
    · simp [hp] at h
    · rw [if_neg hp] at h
      have hstep : dictUpdate d (p :: rest) =
        dictUpdate (dictSet d p.1 p.2) rest := rfl
      rw [hstep, ih _ _ h, dictGet?_dictSet_ne _ _ _ _ (fun e => hp e.symm)]

theorem dictGet?_dictUpdate_of_some (u : PyDict) :
    ∀ (d : PyDict) (k : String) (v : PyVal),
      (u.map Prod.fst).Nodup → dictGet? u k = some v →
      dictGet? (dictUpdate d u) k = some v := by
  induction u with
  | nil => intro d k v _ h; simp [dictGet?] at h
  | cons p rest ih =>
    intro d k v hnd h
    have hnd' : (rest.map Prod.fst).Nodup := (List.nodup_cons.mp hnd).2
    rw [dictGet?_cons] at h
    have hstep : dictUpdate d (p :: rest) =
      dictUpdate (dictSet d p.1 p.2) rest := rfl
    by_cases hp : p.1 = k
    · rw [if_pos hp] at h
      have hnotin : p.1 ∉ rest.map Prod.fst := (List.nodup_cons.mp hnd).1
      have hrest : dictGet? rest k = Option.none := by
        rw [dictGet?_eq_none_iff]
        intro q hq he
        exact hnotin (by rw [hp, ← he]; exact List.mem_map_of_mem Prod.fst hq)
      rw [hstep, dictGet?_dictUpdate_of_none rest _ _ hrest, hp,
        dictGet?_dictSet_self]
      exact h
    · rw [if_neg hp] at h
      rw [hstep]
      exact ih (dictSet d p.1 p.2) k v hnd' h

theorem storeGet?_cons (p : Nat × PyDict) (rest : List (Nat × PyDict))
    (a : Nat) :
    storeGet? (p :: rest) a = if p.1 = a then some p.2 else storeGet? rest a := by
  by_cases h : p.1 = a <;> simp [storeGet?, List.find?_cons, h]

theorem storeGet?_map_set (l : List (Nat × PyDict)) (a : Nat) (d : PyDict)
    (b : Nat) (hne : b ≠ a) :
    storeGet? (l.map (fun p => if p.1 = a then (a, d) else p)) b =
      storeGet? l b := by
  induction l with
  | nil => rfl
  | cons p rest ih =>
    by_cases hp : p.1 = a
    · rw [List.map_cons, if_pos hp, storeGet?_cons, storeGet?_cons,
        if_neg (show ¬((a, d).1 = b) from fun e => hne e.symm),
        if_neg (show ¬(p.1 = b) from fun e => hne (hp.symm.trans e).symm)]
      exact ih
    · rw [List.map_cons, if_neg hp, storeGet?_cons, storeGet?_cons]
      by_cases hpb : p.1 = b
      · rw [if_pos hpb, if_pos hpb]
      · rw [if_neg hpb, if_neg hpb]
        exact ih

theorem storeGet?_map_set_self (l : List (Nat × PyDict)) (a : Nat)
    (d : PyDict) (x : PyDict) (hx : storeGet? l a = some x) :
    storeGet? (l.map (fun p => if p.1 = a then (a, d) else p)) a = some d := by
  induction l with
  | nil => simp [storeGet?] at hx
  | cons p rest ih =>
    by_cases hp : p.1 = a
    · rw [List.map_cons, if_pos hp, storeGet?_cons,
        if_pos (show (a, d).1 = a from rfl)]
    · rw [storeGet?_cons, if_neg hp] at hx
      rw [List.map_cons, if_neg hp, storeGet?_cons, if_neg hp]
      exact ih hx

theorem storeGet?_append_single_ne (l : List (Nat × PyDict)) (n : Nat)
    (d : PyDict) (a : Nat) (hne : a ≠ n) :
    storeGet? (l ++ [(n, d)]) a = storeGet? l a := by
  induction l with
  | nil =>
    rw [List.nil_append, storeGet?_cons,
      if_neg (show ¬((n, d).1 = a) from fun e => hne e.symm)]
  | cons p rest ih =>
    rw [List.cons_append, storeGet?_cons, storeGet?_cons]
    by_cases hpb : p.1 = a
    · rw [if_pos hpb, if_pos hpb]
    · rw [if_neg hpb, if_neg hpb]
      exact ih

theorem storeGet?_append_single_self (l : List (Nat × PyDict)) (n : Nat)
    (d : PyDict) (hl : ∀ p ∈ l, p.1 ≠ n) :
    storeGet? (l ++ [(n, d)]) n = some d := by
  induction l with
  | nil => rw [List.nil_append, storeGet?_cons, if_pos (show (n, d).1 = n from rfl)]
  | cons p rest ih =>
    have hp : p.1 ≠ n := hl p (List.mem_cons_self p rest)
    rw [List.cons_append, storeGet?_cons, if_neg hp]
    exact ih (fun q hq => hl q (List.mem_cons_of_mem p hq))

theorem Heap.alloc_snd (h : Heap) (d : PyDict) : (h.alloc d).2 = h.next :=
  rfl

theorem Heap.get?_set_ne (h : Heap) (a : Nat) (d : PyDict) (b : Nat)
    (hne : b ≠ a) : (h.set a d).get? b = h.get? b :=
  storeGet?_map_set h.store a d b hne

theorem Heap.get?_set_of_some (h : Heap) (a : Nat) (d : PyDict)
    (x : PyDict) (hx : h.get? a = some x) :
    (h.set a d).get? a = some d :=
  storeGet?_map_set_self h.store a d x hx

theorem Heap.get?_alloc_of_ne (h : Heap) (d : PyDict) (a : Nat)
    (hne : a ≠ h.next) : ((h.alloc d).1).get? a = h.get? a :=
  storeGet?_append_single_ne h.store h.next d a hne

theorem Heap.get?_alloc_self (h : Heap) (d : PyDict) (hwf : h.WF) :
    ((h.alloc d).1).get? h.next = some d :=
  storeGet?_append_single_self h.store h.next d
    (fun p hp => Nat.ne_of_lt (hwf p hp))

theorem Heap.WF_set (h : Heap) (a : Nat) (d : PyDict) (hwf : h.WF) :
    (h.set a d).WF := by
  intro q hq
  simp only [Heap.set, List.mem_map] at hq
  obtain ⟨p, hp, he⟩ := hq
  by_cases hpa : p.1 = a
  · rw [← he]
    simp only [if_pos hpa]
    exact hpa ▸ hwf p hp
  · rw [← he]
    simp only [if_neg hpa]
    exact hwf p hp

theorem Heap.WF_alloc (h : Heap) (d : PyDict) (hwf : h.WF) :
    ((h.alloc d).1).WF := by
  intro q hq
  simp only [Heap.alloc, List.mem_append, List.mem_singleton] at hq
  rcases hq with hq | hq
  · exact Nat.lt_succ_of_lt (hwf q hq)
  · rw [hq]
    exact Nat.lt_succ_self _

theorem Heap.lt_next_of_get?_some (h : Heap) (a : Nat) (x : PyDict)
    (hwf : h.WF) (hx : h.get? a = some x) : a < h.next := by
  unfold Heap.get? storeGet? at hx
  cases hfind : h.store.find? (fun p => p.1 == a) with
  | none => rw [hfind] at hx; simp at hx
  | some q =>
    have hqa : q.1 = a := by
      have := List.find?_some hfind
      simpa using this
    have hqm : q ∈ h.store := List.mem_of_find?_eq_some hfind
    exact hqa ▸ hwf q hqm

theorem copyUpdate_get (defaults : PyDict) (h : Heap) (user : Nat)
    (ud : PyDict) (hwf : h.WF) (hu : h.get? user = some ud) :
    ((copyUpdate defaults h user).1).get? (copyUpdate defaults h user).2 =
      some (dictUpdate defaults ud) := by
  have hlt : user < h.next := Heap.lt_next_of_get?_some h user ud hwf hu
  have hne : user ≠ h.next := Nat.ne_of_lt hlt
  have hread : ((h.alloc defaults).1).get? user = some ud := by
    rw [Heap.get?_alloc_of_ne h defaults user hne]; exact hu
  simp only [copyUpdate, hread, Option.getD_some, Heap.alloc_snd]
  exact Heap.get?_set_of_some _ _ _ defaults
    (Heap.get?_alloc_self h defaults hwf)

theorem copyUpdate_frame (defaults : PyDict) (h : Heap) (user : Nat)
    (ud : PyDict) (hwf : h.WF) (hu : h.get? user = some ud) :
    ((copyUpdate defaults h user).1).get? user = some ud := by
  have hlt : user < h.next := Heap.lt_next_of_get?_some h user ud hwf hu
  have hne : user ≠ h.next := Nat.ne_of_lt hlt
  simp only [copyUpdate, Heap.alloc_snd]
  rw [Heap.get?_set_ne _ _ _ _ hne, Heap.get?_alloc_of_ne h defaults user hne]
  exact hu

theorem copyUpdate_WF (defaults : PyDict) (h : Heap) (user : Nat)
    (hwf : h.WF) : ((copyUpdate defaults h user).1).WF :=
  Heap.WF_set _ _ _ (Heap.WF_alloc h defaults hwf)

theorem runStages_cons (fails : Stage → Bool) (s : Stage)
    (rest : List Stage) :
    runStages fails (s :: rest) =
      if fails s then ([s], some s)
      else (s :: (runStages fails rest).1, (runStages fails rest).2) :=
  rfl

theorem runStages_isPre (fails : Stage → Bool) (l : List Stage) :
    (runStages fails l).1 <+: l := by
  induction l with
  | nil => exact ⟨[], rfl⟩
  | cons s rest ih =>
    by_cases hf : fails s = true
    · rw [runStages_cons, if_pos hf]
      exact ⟨rest, rfl⟩
    · rw [runStages_cons, if_neg hf]
      obtain ⟨t, ht⟩ := ih
      exact ⟨t, by rw [List.cons_append, ht]⟩

theorem runStages_of_none (fails : Stage → Bool) (l : List Stage)
    (h : (runStages fails l).2 = Option.none) : (runStages fails l).1 = l := by
  induction l with
  | nil => rfl
  | cons s rest ih =>
    by_cases hf : fails s = true
    · rw [runStages_cons, if_pos hf] at h
      exact absurd h (by simp)
    · rw [runStages_cons, if_neg hf] at h ⊢
      show s :: (runStages fails rest).1 = s :: rest
      rw [ih h]

theorem runStages_of_some (fails : Stage → Bool) (l : List Stage) (e : Stage)
    (h : (runStages fails l).2 = some e) :
    fails e = true ∧ (runStages fails l).1.getLast? = some e := by
  induction l with
  | nil => simp [runStages] at h
  | cons s rest ih =>
    by_cases hf : fails s = true
    · rw [runStages_cons, if_pos hf] at h ⊢
      have he : e = s := (Option.some.inj h).symm
      subst he
      exact ⟨hf, rfl⟩
    · rw [runStages_cons, if_neg hf] at h ⊢
      obtain ⟨h1, h2⟩ := ih h
      refine ⟨h1, ?_⟩
      show (s :: (runStages fails rest).1).getLast? = some e
      cases hr : (runStages fails rest).1 with
      | nil => rw [hr] at h2; exact absurd h2 (by simp)
      | cons a t =>
        rw [hr] at h2
        rw [List.getLast?_cons_cons]
        exact h2

/-- C1: assigning `vmec_file` (directly or through the `Stellarator`
constructor) raises exactly when the path's extension, in the sense of
`pathlib.Path(...).suffix`, differs from the string `.nc`; for an `.nc`
path the assignment completes without raising. -/
theorem vmec_file_extension_check (file : String) (logger : Option Logger)
    (st : StellState) :
    ((stellarator_init file logger).2 = true ↔ pathSuffix file ≠ ".nc") ∧
    ((vmec_file_setter st file).2 = true ↔ pathSuffix file ≠ ".nc") := by
  constructor
  · by_cases h : pathSuffix file = ".nc" <;>
      simp [stellarator_init, vmec_file_setter, h]
  · by_cases h : pathSuffix file = ".nc" <;>
      simp [vmec_file_setter, h]

/-- C9: when the assigned path's extension is not `.nc`, the setter has
already stored the invalid path in `_vmec_file` before raising, so the
raise flag is set and the `vmec_file` property now reads back the invalid
path, not the previous value. -/
theorem vmec_file_setter_stores_before_raise (st : StellState) (file : String)
    (h : pathSuffix file ≠ ".nc") :
    (vmec_file_setter st file).2 = true ∧
    ((vmec_file_setter st file).1).vmec_file = file ∧
    vmec_file_getter ((vmec_file_setter st file).1) = file := by
  simp [vmec_file_setter, vmec_file_getter, h]

theorem vmec_file_setter_stores_before_raise_witness :
    pathSuffix ("plasma.txt") ≠ ".nc" ∧
    (vmec_file_setter
      ⟨"wout_old.nc", Option.none, Option.none, Option.none, Option.none⟩
      ("plasma.txt")).2 = true ∧
    vmec_file_getter ((vmec_file_setter
      ⟨"wout_old.nc", Option.none, Option.none, Option.none, Option.none⟩
      ("plasma.txt")).1) = "plasma.txt" := by
  have h := vmec_file_setter_stores_before_raise
    ⟨"wout_old.nc", Option.none, Option.none, Option.none, Option.none⟩
    ("plasma.txt") (by decide)
  exact ⟨by decide, h.1, h.2.2⟩

/-- C8: after any assignment to the `logger` property (`None`, a
handlerless logger, or a logger with handlers), the stored logger is
non-`None` and has handlers. -/
theorem logger_always_usable (logger_object : Option Logger) :
    (logger_setter logger_object).isSome = true ∧
    ((logger_setter logger_object).map Logger.hasHandlers) = some true := by
  cases logger_object with
  | none => decide
  | some lg =>
    obtain ⟨hh⟩ := lg
    cases hh <;> decide

/-- C6: `construct_source_mesh` calls `create_vertices` before
`create_mesh`, each exactly once, after building the `SourceMesh`;
`construct_invessel_build` calls `populate_surfaces`, `calculate_loci`
and `generate_components`, each exactly once and in that order, after
building the `InVesselBuild`. -/
theorem construct_call_order :
    construct_source_mesh_calls.count CEvent.createVertices = 1 ∧
    construct_source_mesh_calls.count CEvent.createMesh = 1 ∧
    construct_source_mesh_calls.indexOf CEvent.sourceMeshNew <
      construct_source_mesh_calls.indexOf CEvent.createVertices ∧
    construct_source_mesh_calls.indexOf CEvent.createVertices <
      construct_source_mesh_calls.indexOf CEvent.createMesh ∧
    construct_invessel_build_calls.count CEvent.populateSurfaces = 1 ∧
    construct_invessel_build_calls.count CEvent.calculateLoci = 1 ∧
    construct_invessel_build_calls.count CEvent.generateComponents = 1 ∧
    construct_invessel_build_calls.indexOf CEvent.invesselBuildNew <
      construct_invessel_build_calls.indexOf CEvent.populateSurfaces ∧
    construct_invessel_build_calls.indexOf CEvent.populateSurfaces <
      construct_invessel_build_calls.indexOf CEvent.calculateLoci ∧
    construct_invessel_build_calls.indexOf CEvent.calculateLoci <
      construct_invessel_build_calls.indexOf CEvent.generateComponents := by
  decide

/-- C5: `parastell()` runs its stages in the fixed order (configuration
read, stellarator construction, then in-vessel build construction and
export, magnet construction and export, source-mesh construction and
export, DAGMC export); the executed stages always form a prefix of that
order, all stages run when none raises, and when a stage raises it is
the last stage executed — no subsequent stage runs, with no retries. -/
theorem parastell_pipeline_fail_fast (fails : Stage → Bool) (e : Stage) :
    pipelineStages =
      [Stage.readConfig, Stage.initStellarator,
       Stage.constructInvesselBuild, Stage.exportInvesselBuild,
       Stage.constructMagnets, Stage.exportMagnets,
       Stage.constructSourceMesh, Stage.exportSourceMesh,
       Stage.exportDagmc] ∧
    (parastellRun fails).1 <+: pipelineStages ∧
    ((parastellRun fails).2 = Option.none →
      (parastellRun fails).1 = pipelineStages) ∧
    ((parastellRun fails).2 = some e →
      fails e = true ∧ (parastellRun fails).1.getLast? = some e) :=
  ⟨rfl, runStages_isPre fails pipelineStages,
   runStages_of_none fails pipelineStages,
   runStages_of_some fails pipelineStages e⟩

theorem parastell_pipeline_fail_fast_witness :
    (fun s => decide (s = Stage.constructMagnets)) Stage.constructMagnets = true ∧
    (parastellRun (fun s => decide (s = Stage.constructMagnets))).1.getLast? = some Stage.constructMagnets ∧
    (parastellRun (fun _ => false)).1 = pipelineStages :=
  ⟨by decide,
   ((parastell_pipeline_fail_fast (fun s => decide (s = Stage.constructMagnets)) Stage.constructMagnets).2.2.2
     (by decide)).2,
   (parastell_pipeline_fail_fast (fun _ => false) Stage.readConfig).2.2.1
     (by decide)⟩

/-- C7: `read_yaml_config` succeeds exactly when all five required
sections (`vmec_file`, `invessel_build`, `magnet_coils`, `source_mesh`,
`dagmc_export`) are present in the loaded mapping, in which case it
returns precisely those five values; and the configuration-read stage of
`parastell()` precedes every geometry stage, so its failure ends the run
with nothing else executed. -/
theorem read_yaml_config_required_keys (all_data good_data : PyDict)
    (a b c d e : PyVal) (fails : Stage → Bool)
    (h1 : dictGet? good_data ("vmec_file") = some a)
    (h2 : dictGet? good_data ("invessel_build") = some b)
    (h3 : dictGet? good_data ("magnet_coils") = some c)
    (h4 : dictGet? good_data ("source_mesh") = some d)
    (h5 : dictGet? good_data ("dagmc_export") = some e)
    (hf : fails Stage.readConfig = true) :
    ((read_yaml_config all_data).isSome ↔
      ((dictGet? all_data ("vmec_file")).isSome ∧
       (dictGet? all_data ("invessel_build")).isSome ∧
       (dictGet? all_data ("magnet_coils")).isSome ∧
       (dictGet? all_data ("source_mesh")).isSome ∧
       (dictGet? all_data ("dagmc_export")).isSome)) ∧
    read_yaml_config good_data = some (a, b, c, d, e) ∧
    (parastellRun fails).1 = [Stage.readConfig] := by
  refine ⟨?_, ?_, ?_⟩
  · unfold read_yaml_config
    cases hv1 : dictGet? all_data ("vmec_file") <;>
    cases hv2 : dictGet? all_data ("invessel_build") <;>
    cases hv3 : dictGet? all_data ("magnet_coils") <;>
    cases hv4 : dictGet? all_data ("source_mesh") <;>
    cases hv5 : dictGet? all_data ("dagmc_export") <;> simp
  · unfold read_yaml_config
    rw [h1, h2, h3, h4, h5]
  · simp [parastellRun, pipelineStages, runStages, hf]

theorem read_yaml_config_required_keys_witness :
    (read_yaml_config
      [("vmec_file", PyVal.str ("wout.nc")), ("invessel_build", PyVal.int 1),
       ("magnet_coils", PyVal.int 2), ("source_mesh", PyVal.int 3),
       ("dagmc_export", PyVal.int 4)]).isSome ∧
    read_yaml_config
      [("vmec_file", PyVal.str ("wout.nc")), ("invessel_build", PyVal.int 1),
       ("magnet_coils", PyVal.int 2), ("source_mesh", PyVal.int 3),
       ("dagmc_export", PyVal.int 4)] =
      some (PyVal.str ("wout.nc"), PyVal.int 1, PyVal.int 2, PyVal.int 3,
        PyVal.int 4) ∧
    (read_yaml_config [("vmec_file", PyVal.str ("wout.nc"))]).isSome = false ∧
    (parastellRun (fun _ => true)).1 = [Stage.readConfig] := by
  have H := read_yaml_config_required_keys
    [("vmec_file", PyVal.str ("wout.nc"))]
    [("vmec_file", PyVal.str ("wout.nc")), ("invessel_build", PyVal.int 1),
     ("magnet_coils", PyVal.int 2), ("source_mesh", PyVal.int 3),
     ("dagmc_export", PyVal.int 4)]
    (PyVal.str ("wout.nc")) (PyVal.int 1) (PyVal.int 2) (PyVal.int 3)
    (PyVal.int 4) (fun _ => true)
    (by decide) (by decide) (by decide) (by decide) (by decide) rfl
  refine ⟨by rw [H.2.1]; rfl, H.2.1, ?_, H.2.2⟩
  decide

/-- C2: each of `set_invessel_build_dict`, `set_magnets_dict` and
`set_source_dict` stores (and the matching `get_*` returns) exactly the
merge of the user's dict over the named defaults: keys present in the
user's dict keep the user's value, absent default keys keep their default
— in particular `repeat = 0`, `num_ribs = 61`, `num_rib_pts = 61` for the
in-vessel build, `sample_mod = 1` for magnets, and `scale = m2cm = 100`
in all three dictionaries. -/
theorem set_dicts_defaults_merge (h0 : Heap) (user : Nat) (ud : PyDict)
    (k : String) (hwf : h0.WF) (hu : h0.get? user = some ud)
    (hnd : (ud.map Prod.fst).Nodup) :
    get_invessel_build_dict (set_invessel_build_dict h0 user).1
        (set_invessel_build_dict h0 user).2 =
      some (dictUpdate invessel_build_def ud) ∧
    get_magnets_dict (set_magnets_dict h0 user).1
        (set_magnets_dict h0 user).2 =
      some (dictUpdate magnets_def ud) ∧
    get_source_dict (set_source_dict h0 user).1
        (set_source_dict h0 user).2 =
      some (dictUpdate source_def ud) ∧
    ((dictGet? ud k).isSome →
      dictGet? (dictUpdate invessel_build_def ud) k = dictGet? ud k ∧
      dictGet? (dictUpdate magnets_def ud) k = dictGet? ud k ∧
      dictGet? (dictUpdate source_def ud) k = dictGet? ud k) ∧
    (dictGet? ud k = Option.none →
      dictGet? (dictUpdate invessel_build_def ud) k =
        dictGet? invessel_build_def k ∧
      dictGet? (dictUpdate magnets_def ud) k = dictGet? magnets_def k ∧
      dictGet? (dictUpdate source_def ud) k = dictGet? source_def k) ∧
    dictGet? invessel_build_def ("repeat") = some (PyVal.int 0) ∧
    dictGet? invessel_build_def ("num_ribs") = some (PyVal.int 61) ∧
    dictGet? invessel_build_def ("num_rib_pts") = some (PyVal.int 61) ∧
    dictGet? magnets_def ("sample_mod") = some (PyVal.int 1) ∧
    dictGet? invessel_build_def ("scale") = some (PyVal.int m2cm) ∧
    dictGet? magnets_def ("scale") = some (PyVal.int m2cm) ∧
    dictGet? source_def ("scale") = some (PyVal.int m2cm) ∧
    m2cm = 100 := by
  refine ⟨?_, ?_, ?_, ?_, ?_, by decide, by decide, by decide, by decide,
    by decide, by decide, by decide, rfl⟩
  · exact copyUpdate_get invessel_build_def h0 user ud hwf hu
  · exact copyUpdate_get magnets_def h0 user ud hwf hu
  · exact copyUpdate_get source_def h0 user ud hwf hu
  · intro hk
    obtain ⟨v, hv⟩ := Option.isSome_iff_exists.mp hk
    rw [hv]
    exact ⟨dictGet?_dictUpdate_of_some ud invessel_build_def k v hnd hv,
      dictGet?_dictUpdate_of_some ud magnets_def k v hnd hv,
      dictGet?_dictUpdate_of_some ud source_def k v hnd hv⟩
  · intro hk
    exact ⟨dictGet?_dictUpdate_of_none ud invessel_build_def k hk,
      dictGet?_dictUpdate_of_none ud magnets_def k hk,
      dictGet?_dictUpdate_of_none ud source_def k hk⟩

theorem set_dicts_defaults_merge_witness :
    get_invessel_build_dict
        (set_invessel_build_dict ⟨[(0, [("wall_s", PyVal.int 1),
          ("scale", PyVal.int 50)])], 1⟩ 0).1
        (set_invessel_build_dict ⟨[(0, [("wall_s", PyVal.int 1),
          ("scale", PyVal.int 50)])], 1⟩ 0).2 =
      some (dictUpdate invessel_build_def
        [("wall_s", PyVal.int 1), ("scale", PyVal.int 50)]) ∧
    dictGet? (dictUpdate invessel_build_def
        [("wall_s", PyVal.int 1), ("scale", PyVal.int 50)]) ("scale") =
      dictGet? [("wall_s", PyVal.int 1), ("scale", PyVal.int 50)] ("scale") ∧
    dictGet? invessel_build_def ("repeat") = some (PyVal.int 0) := by
  have H := set_dicts_defaults_merge
    ⟨[(0, [("wall_s", PyVal.int 1), ("scale", PyVal.int 50)])], 1⟩ 0
    [("wall_s", PyVal.int 1), ("scale", PyVal.int 50)] ("scale")
    (by decide) (by decide) (by decide)
  exact ⟨H.1, (H.2.2.2.1 (by decide)).1, H.2.2.2.2.2.1⟩

/-- C10: running `set_invessel_build_dict`, `set_magnets_dict`,
`set_source_dict` and `set_dagmc_export` in sequence on the same user
dict leaves the user's dict object unchanged: each call copies the
defaults and only reads the user's dict during the merge. -/
theorem set_dicts_frame_user_dict (h0 : Heap) (user : Nat) (ud : PyDict)
    (hwf : h0.WF) (hu : h0.get? user = some ud) :
    ((set_dagmc_export
        ((set_source_dict
          ((set_magnets_dict
            ((set_invessel_build_dict h0 user).1) user).1) user).1)
        user).1).get? user = some ud := by
  simp only [set_invessel_build_dict, set_magnets_dict, set_source_dict,
    set_dagmc_export]
  have w1 := copyUpdate_WF invessel_build_def h0 user hwf
  have f1 := copyUpdate_frame invessel_build_def h0 user ud hwf hu
  have w2 := copyUpdate_WF magnets_def _ user w1
  have f2 := copyUpdate_frame magnets_def _ user ud w1 f1
  have w3 := copyUpdate_WF source_def _ user w2
  have f3 := copyUpdate_frame source_def _ user ud w2 f2
  exact copyUpdate_frame dagmc_export_def _ user ud w3 f3

theorem set_dicts_frame_user_dict_witness :
    ((set_dagmc_export
        ((set_source_dict
          ((set_magnets_dict
            ((set_invessel_build_dict
              ⟨[(0, [("toroidal_extent", PyVal.int 90)])], 1⟩ 0).1) 0).1)
          0).1) 0).1).get? 0 =
      some [("toroidal_extent", PyVal.int 90)] :=
  set_dicts_frame_user_dict ⟨[(0, [("toroidal_extent", PyVal.int 90)])], 1⟩
    0 [("toroidal_extent", PyVal.int 90)] (by decide) (by decide)

theorem mem_import_ivb_step (st : StellState) (e : Event)
    (h : e ∈ import_ivb_step st) :
    ∃ n d, e = Event.importStepCubit n d := by
  obtain ⟨vf, lg, ib, ms, sm⟩ := st
  cases ib with
  | none => simp [import_ivb_step] at h
  | some ivbObj =>
    simp [import_ivb_step] at h
    obtain ⟨a, hx, he⟩ := h
    exact ⟨a, ivbObj.export_dir, he.symm⟩

theorem mem_tag_materials_legacy (st : StellState) (e : Event)
    (h : e ∈ tag_materials_legacy st) :
    ∃ t v, e = Event.cubitCmd (Cmd.groupAddVolume t v) := by
  obtain ⟨vf, lg, ib, ms, sm⟩ := st
  cases ms with
  | none =>
    cases ib with
    | none => simp [tag_materials_legacy] at h
    | some ivbObj =>
      simp [tag_materials_legacy] at h
      obtain ⟨a, b, hm, he⟩ := h
      exact ⟨_, _, he.symm⟩
  | some msObj =>
    cases ib with
    | none =>
      simp [tag_materials_legacy] at h
      exact ⟨_, _, h⟩
    | some ivbObj =>
      simp [tag_materials_legacy] at h
      rcases h with h | ⟨a, b, hm, he⟩
      · exact ⟨_, _, h⟩
      · exact ⟨_, _, he.symm⟩

theorem mem_tag_materials_native (st : StellState) (e : Event)
    (h : e ∈ tag_materials_native st) :
    e = Event.cubitCmd Cmd.setDuplicateBlockElementsOff ∨
    (∃ t, e = Event.cubitCmd (Cmd.createMaterial t)) ∨
    (∃ bi v, e = Event.cubitCmd (Cmd.blockAddVolume bi v)) ∨
    (∃ bi t, e = Event.cubitCmd (Cmd.blockMaterial bi t)) := by
  obtain ⟨vf, lg, ib, ms, sm⟩ := st
  cases ms with
  | none =>
    cases ib with
    | none =>
      simp [tag_materials_native] at h
      exact Or.inl h
    | some ivbObj =>
      simp [tag_materials_native, make_material_block] at h
      rcases h with h | ⟨a, b, hm, h | h | h⟩
      · exact Or.inl h
      · exact Or.inr (Or.inl ⟨_, h⟩)
      · exact Or.inr (Or.inr (Or.inl ⟨_, _, h⟩))
      · exact Or.inr (Or.inr (Or.inr ⟨_, _, h⟩))
  | some msObj =>
    cases ib with
    | none =>
      simp [tag_materials_native, make_material_block] at h
      rcases h with h | h | h | h
      · exact Or.inl h
      · exact Or.inr (Or.inl ⟨_, h⟩)
      · exact Or.inr (Or.inr (Or.inl ⟨_, _, h⟩))
      · exact Or.inr (Or.inr (Or.inr ⟨_, _, h⟩))
    | some ivbObj =>
      simp [tag_materials_native, make_material_block] at h
      rcases h with h | h | h | h | ⟨a, b, hm, h | h | h⟩
      · exact Or.inl h
      · exact Or.inr (Or.inl ⟨_, h⟩)
      · exact Or.inr (Or.inr (Or.inl ⟨_, _, h⟩))
      · exact Or.inr (Or.inr (Or.inr ⟨_, _, h⟩))
      · exact Or.inr (Or.inl ⟨_, h⟩)
      · exact Or.inr (Or.inr (Or.inl ⟨_, _, h⟩))
      · exact Or.inr (Or.inr (Or.inr ⟨_, _, h⟩))

theorem mem_export_dagmc_legacy (st : StellState) (user : PyDict) (e : Event)
    (hTleg : pyTruthy (dictGetD (dictUpdate dagmc_export_def user)
      ("legacy_faceting")) = true)
    (h : e ∈ export_dagmc st user) :
    Event.isNativeExport e = false := by
  by_cases hib : st.invessel_build.isSome = true <;>
  by_cases hsk : pyTruthy (dictGetD (dictUpdate dagmc_export_def user)
      ("skip_imprint")) = true <;>
  simp [export_dagmc, hTleg, hib, hsk] at h
  · rcases h with h | h | h | h | h | h
    · subst h; rfl
    · subst h; rfl
    · obtain ⟨n, d, he⟩ := mem_import_ivb_step st e h
      subst he; rfl
    · subst h; rfl
    · obtain ⟨t, v, he⟩ := mem_tag_materials_legacy st e h
      subst he; rfl
    · subst h; rfl
  · rcases h with h | h | h | h | h | h | h
    · subst h; rfl
    · subst h; rfl
    · obtain ⟨n, d, he⟩ := mem_import_ivb_step st e h
      subst he; rfl
    · subst h; rfl
    · subst h; rfl
    · obtain ⟨t, v, he⟩ := mem_tag_materials_legacy st e h
      subst he; rfl
    · subst h; rfl
  · rcases h with h | h | h | h | h
    · subst h; rfl
    · subst h; rfl
    · subst h; rfl
    · obtain ⟨t, v, he⟩ := mem_tag_materials_legacy st e h
      subst he; rfl
    · subst h; rfl
  · rcases h with h | h | h | h | h | h
    · subst h; rfl
    · subst h; rfl
    · subst h; rfl
    · subst h; rfl
    · obtain ⟨t, v, he⟩ := mem_tag_materials_legacy st e h
      subst he; rfl
    · subst h; rfl

theorem mem_export_dagmc_native (st : StellState) (user : PyDict) (e : Event)
    (hFleg : pyTruthy (dictGetD (dictUpdate dagmc_export_def user)
      ("legacy_faceting")) = false)
    (h : e ∈ export_dagmc st user) :
    Event.isLegacyExport e = false := by
  have hnleg : ¬ pyTruthy (dictGetD (dictUpdate dagmc_export_def user)
      ("legacy_faceting")) = true := by simp [hFleg]
  by_cases hib : st.invessel_build.isSome = true <;>
  by_cases hsk : pyTruthy (dictGetD (dictUpdate dagmc_export_def user)
      ("skip_imprint")) = true <;>
  simp [export_dagmc, hnleg, hib, hsk] at h
  · rcases h with h | h | h | h | h | h
    · subst h; rfl
    · subst h; rfl
    · obtain ⟨n, d, he⟩ := mem_import_ivb_step st e h
      subst he; rfl
    · subst h; rfl
    · rcases mem_tag_materials_native st e h with
        he | ⟨t, he⟩ | ⟨bi, v, he⟩ | ⟨bi, t, he⟩ <;> subst he <;> rfl
    · subst h; rfl
  · rcases h with h | h | h | h | h | h | h
    · subst h; rfl
    · subst h; rfl
    · obtain ⟨n, d, he⟩ := mem_import_ivb_step st e h
      subst he; rfl
    · subst h; rfl
    · subst h; rfl
    · rcases mem_tag_materials_native st e h with
        he | ⟨t, he⟩ | ⟨bi, v, he⟩ | ⟨bi, t, he⟩ <;> subst he <;> rfl
    · subst h; rfl
  · rcases h with h | h | h | h | h
    · subst h; rfl
    · subst h; rfl
    · subst h; rfl
    · rcases mem_tag_materials_native st e h with
        he | ⟨t, he⟩ | ⟨bi, v, he⟩ | ⟨bi, t, he⟩ <;> subst he <;> rfl
    · subst h; rfl
  · rcases h with h | h | h | h | h | h
    · subst h; rfl
    · subst h; rfl
    · subst h; rfl
    · subst h; rfl
    · rcases mem_tag_materials_native st e h with
        he | ⟨t, he⟩ | ⟨bi, v, he⟩ | ⟨bi, t, he⟩ <;> subst he <;> rfl
    · subst h; rfl

/-- C3: `export_dagmc` runs exactly one of the two surface-merging
strategies: with `skip_imprint` true in the merged export dict it calls
the in-vessel build's `merge_layer_surfaces` and issues no global
`imprint volume all` / `merge volume all` command; with `skip_imprint`
false (the default) it issues both global commands and never calls
`merge_layer_surfaces`. -/
theorem export_dagmc_imprint_branch (st : StellState) (user : PyDict)
    (b : Bool) (hivb : st.invessel_build.isSome = true)
    (hskip : dictGet? (dictUpdate dagmc_export_def user) ("skip_imprint") =
      some (PyVal.bool b)) :
    (b = true →
      Event.mergeLayerSurfaces ∈ export_dagmc st user ∧
      Event.cubitCmd Cmd.imprintVolumeAll ∉ export_dagmc st user ∧
      Event.cubitCmd Cmd.mergeVolumeAll ∉ export_dagmc st user) ∧
    (b = false →
      Event.cubitCmd Cmd.imprintVolumeAll ∈ export_dagmc st user ∧
      Event.cubitCmd Cmd.mergeVolumeAll ∈ export_dagmc st user ∧
      Event.mergeLayerSurfaces ∉ export_dagmc st user) ∧
    dictGet? dagmc_export_def ("skip_imprint") = some (PyVal.bool false) := by
  have hD : dictGetD (dictUpdate dagmc_export_def user) ("skip_imprint") =
      PyVal.bool b := by
    unfold dictGetD; rw [hskip]; rfl
  refine ⟨?_, ?_, by decide⟩
  · intro hb
    subst hb
    have hT : pyTruthy (dictGetD (dictUpdate dagmc_export_def user)
        ("skip_imprint")) = true := by rw [hD]; rfl
    refine ⟨by simp [export_dagmc, hT], ?_, ?_⟩
    · intro hmem
      by_cases hleg : pyTruthy (dictGetD (dictUpdate dagmc_export_def user)
          ("legacy_faceting")) = true
      · simp [export_dagmc, hT, hleg, hivb] at hmem
        rcases hmem with h | h
        · obtain ⟨n, d, he⟩ := mem_import_ivb_step st _ h
          simp at he
        · obtain ⟨t, v, he⟩ := mem_tag_materials_legacy st _ h
          simp at he
      · simp [export_dagmc, hT, hleg, hivb] at hmem
        rcases hmem with h | h
        · obtain ⟨n, d, he⟩ := mem_import_ivb_step st _ h
          simp at he
        · rcases mem_tag_materials_native st _ h with
            he | ⟨t, he⟩ | ⟨bi, v, he⟩ | ⟨bi, t, he⟩ <;> simp at he
    · intro hmem
      by_cases hleg : pyTruthy (dictGetD (dictUpdate dagmc_export_def user)
          ("legacy_faceting")) = true
      · simp [export_dagmc, hT, hleg, hivb] at hmem
        rcases hmem with h | h
        · obtain ⟨n, d, he⟩ := mem_import_ivb_step st _ h
          simp at he
        · obtain ⟨t, v, he⟩ := mem_tag_materials_legacy st _ h
          simp at he
      · simp [export_dagmc, hT, hleg, hivb] at hmem
        rcases hmem with h | h
        · obtain ⟨n, d, he⟩ := mem_import_ivb_step st _ h
          simp at he
        · rcases mem_tag_materials_native st _ h with
            he | ⟨t, he⟩ | ⟨bi, v, he⟩ | ⟨bi, t, he⟩ <;> simp at he
  · intro hb
    subst hb
    have hF : pyTruthy (dictGetD (dictUpdate dagmc_export_def user)
        ("skip_imprint")) = false := by rw [hD]; rfl
    have hnT : ¬ pyTruthy (dictGetD (dictUpdate dagmc_export_def user)
        ("skip_imprint")) = true := by simp [hF]
    refine ⟨by simp [export_dagmc, hnT], by simp [export_dagmc, hnT], ?_⟩
    intro hmem
    by_cases hleg : pyTruthy (dictGetD (dictUpdate dagmc_export_def user)
        ("legacy_faceting")) = true
    · simp [export_dagmc, hnT, hleg, hivb] at hmem
      rcases hmem with h | h
      · obtain ⟨n, d, he⟩ := mem_import_ivb_step st _ h
        simp at he
      · obtain ⟨t, v, he⟩ := mem_tag_materials_legacy st _ h
        simp at he
    · simp [export_dagmc, hnT, hleg, hivb] at hmem
      rcases hmem with h | h
      · obtain ⟨n, d, he⟩ := mem_import_ivb_step st _ h
        simp at he
      · rcases mem_tag_materials_native st _ h with
          he | ⟨t, he⟩ | ⟨bi, v, he⟩ | ⟨bi, t, he⟩ <;> simp at he

theorem export_dagmc_imprint_branch_witness :
    Event.mergeLayerSurfaces ∈ export_dagmc
      ⟨"wout.nc", Option.none, some ⟨[("plasma", ⟨"plasma", 1⟩)], ""⟩,
        Option.none, Option.none⟩
      [("skip_imprint", PyVal.bool true)] ∧
    Event.cubitCmd Cmd.imprintVolumeAll ∉ export_dagmc
      ⟨"wout.nc", Option.none, some ⟨[("plasma", ⟨"plasma", 1⟩)], ""⟩,
        Option.none, Option.none⟩
      [("skip_imprint", PyVal.bool true)] ∧
    Event.cubitCmd Cmd.mergeVolumeAll ∉ export_dagmc
      ⟨"wout.nc", Option.none, some ⟨[("plasma", ⟨"plasma", 1⟩)], ""⟩,
        Option.none, Option.none⟩
      [("skip_imprint", PyVal.bool true)] := by
  have H := export_dagmc_imprint_branch
    ⟨"wout.nc", Option.none, some ⟨[("plasma", ⟨"plasma", 1⟩)], ""⟩,
      Option.none, Option.none⟩
    [("skip_imprint", PyVal.bool true)] true rfl (by decide)
  exact H.1 rfl

/-- C4: `export_dagmc` runs exactly one of the two faceting strategies:
with `legacy_faceting` true (the default) it ends with the legacy
group-based tagging followed by the legacy export carrying the
`faceting_tolerance`, `length_tolerance` and `normal_tolerance`
parameters, and performs no native export and no native tagging; with
`legacy_faceting` false it ends with the native material-block tagging
followed by the native export carrying `anisotropic_ratio` (default 100)
and `deviation_angle` (default 5), and performs no legacy export. -/
theorem export_dagmc_faceting_branch (st : StellState) (user : PyDict)
    (b : Bool)
    (hleg : dictGet? (dictUpdate dagmc_export_def user) ("legacy_faceting") =
      some (PyVal.bool b)) :
    (b = true →
      (tag_materials_legacy st ++
        [Event.exportDagmcCubitLegacy
          (dictGetD (dictUpdate dagmc_export_def user) ("faceting_tolerance"))
          (dictGetD (dictUpdate dagmc_export_def user) ("length_tolerance"))
          (dictGetD (dictUpdate dagmc_export_def user) ("normal_tolerance"))
          (dictGetD (dictUpdate dagmc_export_def user) ("filename"))
          (dictGetD (dictUpdate dagmc_export_def user) ("export_dir"))]) <:+
        export_dagmc st user ∧
      (export_dagmc st user).all (fun e => !Event.isNativeExport e) = true ∧
      Event.cubitCmd Cmd.setDuplicateBlockElementsOff ∉
        export_dagmc st user) ∧
    (b = false →
      (tag_materials_native st ++
        [Event.exportDagmcCubitNative
          (dictGetD (dictUpdate dagmc_export_def user) ("anisotropic_ratio"))
          (dictGetD (dictUpdate dagmc_export_def user) ("deviation_angle"))
          (dictGetD (dictUpdate dagmc_export_def user) ("filename"))
          (dictGetD (dictUpdate dagmc_export_def user) ("export_dir"))]) <:+
        export_dagmc st user ∧
      (export_dagmc st user).all (fun e => !Event.isLegacyExport e) = true) ∧
    dictGet? dagmc_export_def ("legacy_faceting") = some (PyVal.bool true) ∧
    dictGet? dagmc_export_def ("anisotropic_ratio") = some (PyVal.int 100) ∧
    dictGet? dagmc_export_def ("deviation_angle") = some (PyVal.int 5) := by
  have hD : dictGetD (dictUpdate dagmc_export_def user) ("legacy_faceting") =
      PyVal.bool b := by
    unfold dictGetD; rw [hleg]; rfl
  refine ⟨?_, ?_, by decide, by decide, by decide⟩
  · intro hb
    subst hb
    have hT : pyTruthy (dictGetD (dictUpdate dagmc_export_def user)
        ("legacy_faceting")) = true := by rw [hD]; rfl
    have htr : export_dagmc st user =
        ([Event.initCubit,
          Event.logInfo ("Exporting DAGMC neutronics model...")]
         ++ (if st.invessel_build.isSome then import_ivb_step st else [])
         ++ (if pyTruthy (dictGetD (dictUpdate dagmc_export_def user)
              ("skip_imprint")) then
               [Event.mergeLayerSurfaces]
             else
               [Event.cubitCmd Cmd.imprintVolumeAll,
                Event.cubitCmd Cmd.mergeVolumeAll]))
        ++ (tag_materials_legacy st ++
            [Event.exportDagmcCubitLegacy
              (dictGetD (dictUpdate dagmc_export_def user)
                ("faceting_tolerance"))
              (dictGetD (dictUpdate dagmc_export_def user)
                ("length_tolerance"))
              (dictGetD (dictUpdate dagmc_export_def user)
                ("normal_tolerance"))
              (dictGetD (dictUpdate dagmc_export_def user) ("filename"))
              (dictGetD (dictUpdate dagmc_export_def user)
                ("export_dir"))]) := by
      simp only [export_dagmc]
      rw [if_pos hT]
    refine ⟨?_, ?_, ?_⟩
    · rw [htr]
      exact List.suffix_append _ _
    · rw [List.all_eq_true]
      intro e he
      have hshape := mem_export_dagmc_legacy st user e hT he
      simp [hshape]
    · intro hmem
      by_cases hib : st.invessel_build.isSome = true <;>
      by_cases hsk : pyTruthy (dictGetD (dictUpdate dagmc_export_def user)
          ("skip_imprint")) = true <;>
      simp [export_dagmc, hT, hib, hsk] at hmem
      · rcases hmem with h | h
        · obtain ⟨n, d, he⟩ := mem_import_ivb_step st _ h
          simp at he
        · obtain ⟨t, v, he⟩ := mem_tag_materials_legacy st _ h
          simp at he
      · rcases hmem with h | h
        · obtain ⟨n, d, he⟩ := mem_import_ivb_step st _ h
          simp at he
        · obtain ⟨t, v, he⟩ := mem_tag_materials_legacy st _ h
          simp at he
      · obtain ⟨t, v, he⟩ := mem_tag_materials_legacy st _ hmem
        simp at he
      · obtain ⟨t, v, he⟩ := mem_tag_materials_legacy st _ hmem
        simp at he
  · intro hb
    subst hb
    have hF : pyTruthy (dictGetD (dictUpdate dagmc_export_def user)
        ("legacy_faceting")) = false := by rw [hD]; rfl
    have hnT : ¬ pyTruthy (dictGetD (dictUpdate dagmc_export_def user)
        ("legacy_faceting")) = true := by simp [hF]
    have htr : export_dagmc st user =
        ([Event.initCubit,
          Event.logInfo ("Exporting DAGMC neutronics model...")]
         ++ (if st.invessel_build.isSome then import_ivb_step st else [])
         ++ (if pyTruthy (dictGetD (dictUpdate dagmc_export_def user)
              ("skip_imprint")) then
               [Event.mergeLayerSurfaces]
             else
               [Event.cubitCmd Cmd.imprintVolumeAll,
                Event.cubitCmd Cmd.mergeVolumeAll]))
        ++ (tag_materials_native st ++
            [Event.exportDagmcCubitNative
              (dictGetD (dictUpdate dagmc_export_def user)
                ("anisotropic_ratio"))
              (dictGetD (dictUpdate dagmc_export_def user)
                ("deviation_angle"))
              (dictGetD (dictUpdate dagmc_export_def user) ("filename"))
              (dictGetD (dictUpdate dagmc_export_def user)
                ("export_dir"))]) := by
      simp only [export_dagmc]
      rw [if_neg hnT]
    refine ⟨?_, ?_⟩
    · rw [htr]
      exact List.suffix_append _ _
    · rw [List.all_eq_true]
      intro e he
      have hshape := mem_export_dagmc_native st user e hF he
      simp [hshape]

theorem export_dagmc_faceting_branch_witness :
    (tag_materials_legacy
      ⟨"wout.nc", Option.none, some ⟨[("plasma", ⟨"plasma", 1⟩)], ""⟩,
        Option.none, Option.none⟩ ++
      [Event.exportDagmcCubitLegacy PyVal.none PyVal.none PyVal.none
        (PyVal.str ("dagmc")) (PyVal.str (""))]) <:+
      export_dagmc
        ⟨"wout.nc", Option.none, some ⟨[("plasma", ⟨"plasma", 1⟩)], ""⟩,
          Option.none, Option.none⟩ [] ∧
    (export_dagmc
        ⟨"wout.nc", Option.none, some ⟨[("plasma", ⟨"plasma", 1⟩)], ""⟩,
          Option.none, Option.none⟩ []).all
      (fun e => !Event.isNativeExport e) = true ∧
    Event.cubitCmd Cmd.setDuplicateBlockElementsOff ∉
      export_dagmc
        ⟨"wout.nc", Option.none, some ⟨[("plasma", ⟨"plasma", 1⟩)], ""⟩,
          Option.none, Option.none⟩ [] := by
  have H := export_dagmc_faceting_branch
    ⟨"wout.nc", Option.none, some ⟨[("plasma", ⟨"plasma", 1⟩)], ""⟩,
      Option.none, Option.none⟩ [] true (by decide)
  exact H.1 rfl

end Parastell
